import Mathlib

/-!
Verification development for the drone-planner survey pipeline
(`calculateStrips` in `src/strips.js`).

The JavaScript function is shallowly embedded over exact rational
arithmetic (floating point is idealised as ℚ).  All geospatial
primitives the source takes from the external Turf.js library
(`turf.distance`, `turf.destination`, `turf.lineSplit`,
`turf.booleanPointInPolygon`, `turf.length`, `turf.along`,
`turf.midpoint`, `turf.transformRotate`, `turf.centroid`, `turf.bbox`,
`turf.area`) are gathered in a `Geo` record, and the pipeline is
parametric in it: the theorems below are about the algorithm of
`calculateStrips` for any library behaviour, and a concrete executable
planar instance (`pGeo`) is provided to evaluate the pipeline on
concrete inputs.

JavaScript peculiarities kept by the model:
* `x || d` on parsed numbers (falsy `0`/`NaN`/missing picks the
  default) is `jsOr`;
* `%` is the truncated remainder (`jsMod`);
* `toFixed(2)` followed by `parseFloat` is `jsToFixed2` (round half
  away from zero at two decimals, for the nonnegative values it is
  applied to);
* a thrown `Error` is an `Except.error`; the two messages of the
  source are the two constructors of `CalcError`.

The only behaviours that cannot be mirrored by a total function are the
two non-terminating ones of the source (`photoSpacing = 0` or
`stripSpacing = 0` make the JS loops run forever); the theorems that
touch those quantities carry positivity hypotheses.
-/

/- Batteries ships the arithmetic of `Rat` as `@[irreducible]`, which
blocks the evaluation of the executable model inside `decide` and
`rfl` proofs; restore the ordinary reducibility of those definitions
(this changes elaboration only, not the definitions). -/
set_option allowUnsafeReducibility true
attribute [semireducible] Rat.add Rat.mul Rat.inv Rat.sub Rat.div Rat.ofScientific

namespace DronePlanner

/-- A position, in `(lng, lat)` order exactly as in the GeoJSON input. -/
abbrev Point : Type := ℚ × ℚ

/-- A line string: the `coordinates` of a GeoJSON LineString. -/
abbrev Line : Type := List Point

/-- The `coordinates` of a GeoJSON Polygon: a list of rings. -/
abbrev Poly : Type := List (List Point)

/-- `[minX, minY, maxX, maxY]` as returned by `turf.bbox`. -/
structure BBox where
  minX : ℚ
  minY : ℚ
  maxX : ℚ
  maxY : ℚ
deriving DecidableEq

/-- JavaScript `x || d` after numeric parsing: `none` stands for a
missing field or a non-numeric value (whose `parseFloat` is `NaN`,
falsy), `some 0` is falsy as well, any other number is truthy. -/
def jsOr (x : Option ℚ) (d : ℚ) : ℚ :=
  match x with
  | none => d
  | some q => if q = 0 then d else q

/-- Truncation toward zero, as JavaScript coerces for `%`. -/
def jsTrunc (q : ℚ) : ℤ := if 0 ≤ q then ⌊q⌋ else ⌈q⌉

/-- JavaScript remainder `a % b` (sign of the dividend). -/
def jsMod (a b : ℚ) : ℚ := a - b * jsTrunc (a / b)

/-- `parseFloat(x.toFixed(2))` for the nonnegative statistics the
source rounds: half away from zero at two decimals. -/
def jsToFixed2 (q : ℚ) : ℚ := (⌊q * 100 + 1 / 2⌋ : ℚ) / 100

/-- The geospatial primitives `calculateStrips` takes from the global
`turf` object.  Distances are in kilometers, bearings in degrees,
areas in square meters, exactly as the source uses them. -/
structure Geo where
  distance : Point → Point → ℚ
  destination : Point → ℚ → ℚ → Point
  transformRotate : ℚ → Point → Point → Point
  centroid : Poly → Point
  bbox : Poly → BBox
  lineSplit : Line → Poly → List Line
  midpoint : Point → Point → Point
  booleanPointInPolygon : Point → Poly → Bool
  length : Line → ℚ
  along : Line → ℚ → Point
  area : Poly → ℚ

/-- The survey-area argument: a GeoJSON object with a `type` tag and
polygon coordinates. -/
structure GeoJSON where
  type : String
  coordinates : Poly
deriving DecidableEq

/-- The `drone` argument (all fields may be missing, as the source
allows a partial object). -/
structure Drone where
  sensorWidth_px : Option ℚ
  sensorHeight_px : Option ℚ
  pixelSize_um : Option ℚ
  focalLength_mm : Option ℚ
deriving DecidableEq

/-- The `options` argument. -/
structure Options where
  height : Option ℚ
  frontlap : Option ℚ
  sidelap : Option ℚ
  direction : Option ℚ
  minSegmentLength : Option ℚ
deriving DecidableEq

/-- The drone fields after the `|| 0` defaulting and unit conversion
of lines 37-40 of the source. -/
structure ParsedDrone where
  sensorW_px : ℚ
  sensorH_px : ℚ
  pixelSize_m : ℚ
  focal_m : ℚ
deriving DecidableEq

/-- Lines 37-40: `drone.sensorWidth_px || 0`, `(drone.pixelSize_um || 0) * 1e-6`,
`(drone.focalLength_mm || 0) * 1e-3`. -/
def parseDrone (d : Drone) : ParsedDrone :=
  { sensorW_px := jsOr d.sensorWidth_px 0
    sensorH_px := jsOr d.sensorHeight_px 0
    pixelSize_m := jsOr d.pixelSize_um 0 * (1 / 1000000)
    focal_m := jsOr d.focalLength_mm 0 * (1 / 1000) }

/-- The options after the parsing of lines 42-46 of the source. -/
structure ParsedOpts where
  height : ℚ
  frontlap : ℚ
  sidelap : ℚ
  dir : ℚ
  minSeg : ℚ
deriving DecidableEq

/-- Lines 42-46: `parseFloat(options.height) || 0`,
`parseFloat(options.frontlap) || 0.7`, `parseFloat(options.sidelap) || 0.6`,
`(parseFloat(options.direction) || 0) % 360`,
`options.minSegmentLength || 1`. -/
def parseOpts (o : Options) : ParsedOpts :=
  { height := jsOr o.height 0
    frontlap := jsOr o.frontlap (7 / 10)
    sidelap := jsOr o.sidelap (3 / 5)
    dir := jsMod (jsOr o.direction 0) 360
    minSeg := jsOr o.minSegmentLength 1 }

/-- One emitted photo point (line 119-124 of the source). -/
structure PhotoPoint where
  lat : ℚ
  lng : ℚ
  stripIndex : ℕ
  pointIndex : ℕ
deriving DecidableEq

/-- One emitted strip segment (line 101-104 of the source). -/
structure StripLine where
  id : String
  coordinates : Line
deriving DecidableEq

/-- The summary record of lines 138-144. -/
structure SummaryStats where
  areaHa : ℚ
  numStrips : ℕ
  numPhotos : ℕ
  totalLengthKm : ℚ
  estTimeMin : ℤ
deriving DecidableEq

/-- The value of a successful call. -/
structure CalcResult where
  photoPoints : List PhotoPoint
  stripLines : List StripLine
  summaryStats : SummaryStats
deriving DecidableEq

/-- The two `throw new Error(...)` of the source: line 34
(`polygonGeoJSON must be a GeoJSON Polygon`) and line 52
(`Missing sensor/pixel/focal/height parameters`). -/
inductive CalcError where
  | inputTypeError
  | missingParameterError
deriving DecidableEq

/-- The template string id of line 102: `i + "-" + stripLines.length`. -/
def mkId (i k : ℕ) : String := toString i ++ "-" ++ toString k

/-- All quantities the main loop of the source reads after the
parameter checks: footprint, normalized polygon, bbox, spacings and
candidate-strip count, computed exactly as lines 54-78 of the source. -/
structure Ctx where
  geo : Geo
  origPoly : Poly
  dir : ℚ
  minSeg : ℚ
  centroid : Point
  rotatedPoly : Poly
  bb : BBox
  stripSpacing : ℚ
  photoSpacing : ℚ
  leftPoint : Point
  rightPoint : Point
  spanM : ℚ
  numCandidates : ℤ
  startPoint : Point

/-- Lines 54-78 of the source: footprint, centroid, rotation by
`-dir`, bbox, spacings, bbox edge midpoints, geodesic span, candidate
count `ceil((span+spacing)/spacing)` clamped below at 1, and the start
point one spacing west (bearing 90, negative distance) of the left
edge. -/
def ctxOf (geo : Geo) (g : GeoJSON) (pd : ParsedDrone) (po : ParsedOpts) : Ctx :=
  let sensorW_m := pd.sensorW_px * pd.pixelSize_m
  let sensorH_m := pd.sensorH_px * pd.pixelSize_m
  let footprintX := po.height * sensorW_m / pd.focal_m
  let footprintY := po.height * sensorH_m / pd.focal_m
  let poly := g.coordinates
  let centroid := geo.centroid poly
  let rotatedPoly := poly.map (List.map (geo.transformRotate (-po.dir) centroid))
  let bb := geo.bbox rotatedPoly
  let stripSpacing := footprintX * (1 - po.sidelap)
  let photoSpacing := footprintY * (1 - po.frontlap)
  let centerY := (bb.minY + bb.maxY) / 2
  let leftPoint : Point := (bb.minX, centerY)
  let rightPoint : Point := (bb.maxX, centerY)
  let totalWidth_m := geo.distance leftPoint rightPoint * 1000
  let n0 : ℤ := ⌈(totalWidth_m + stripSpacing) / stripSpacing⌉
  let n : ℤ := if n0 < 1 then 1 else n0
  let startPoint := geo.destination leftPoint (-stripSpacing / 1000) 90
  { geo := geo, origPoly := poly, dir := po.dir, minSeg := po.minSeg,
    centroid := centroid, rotatedPoly := rotatedPoly, bb := bb,
    stripSpacing := stripSpacing, photoSpacing := photoSpacing,
    leftPoint := leftPoint, rightPoint := rightPoint, spanM := totalWidth_m,
    numCandidates := n, startPoint := startPoint }

/-- Line 87: the base point of candidate strip `i`, at
`i * stripSpacing` meters (bearing 90) from the start point. -/
def offsetPoint (C : Ctx) (i : ℕ) : Point :=
  C.geo.destination C.startPoint ((i : ℚ) * C.stripSpacing / 1000) 90

/-- Lines 88-90: the 20 km probe line through `offsetPoint i`, built
from its south end to its north end. -/
def probeLine (C : Ctx) (i : ℕ) : Line :=
  let o := offsetPoint C i
  let top := C.geo.destination o (20000 / 1000) 0
  let bottom := C.geo.destination o (20000 / 1000) 180
  [bottom, top]

/-- Line 92: the pieces `turf.lineSplit` cuts the probe line of
candidate strip `i` into. -/
def segmentsOf (C : Ctx) (i : ℕ) : List Line :=
  C.geo.lineSplit (probeLine C i) C.rotatedPoly

/-- Lines 96-97: a piece is kept when the midpoint of its endpoints
lies in the rotated polygon. -/
def segAccept (C : Ctx) (seg : Line) : Bool :=
  C.geo.booleanPointInPolygon
    (C.geo.midpoint (seg.headD (0, 0)) (seg.getLastD (0, 0))) C.rotatedPoly

/-- Line 99/116: rotation back to the original frame by `+dir` about
the stored centroid. -/
def rotBackPoint (C : Ctx) (p : Point) : Point :=
  C.geo.transformRotate C.dir C.centroid p

/-- Line 99: an accepted segment rotated back to the original frame. -/
def lineBack (C : Ctx) (seg : Line) : Line := seg.map (rotBackPoint C)

/-- Lines 114-117: the sample at step `s`, taken `s * photoSpacing`
meters along the segment and rotated back to the original frame. -/
def sampleAt (C : Ctx) (seg : Line) (s : ℕ) : Point :=
  rotBackPoint C (C.geo.along seg ((s : ℚ) * C.photoSpacing / 1000))

/-- Line 111-113: the sampling loop runs `s = 0 .. floor(len/spacing)`,
that is `(floor(len/spacing) + 1).toNat` iterations (none when the
floor is negative, matching the idle JS loop). -/
def stepCountOf (C : Ctx) (seg : Line) : ℕ :=
  (⌊C.geo.length seg * 1000 / C.photoSpacing⌋ + 1).toNat

/-- Lines 113-127: one iteration of the sampling loop.  The
accumulator is the photo list so far and `pointIndexInStrip`. -/
def sampStep (C : Ctx) (k : ℕ) (seg : Line) (acc : List PhotoPoint × ℕ) (s : ℕ) :
    List PhotoPoint × ℕ :=
  let pt := sampleAt C seg s
  if C.geo.booleanPointInPolygon pt C.origPoly then
    (acc.1 ++ [{ lat := pt.2, lng := pt.1, stripIndex := k, pointIndex := acc.2 }],
     acc.2 + 1)
  else acc

/-- Lines 107-127: the photo points an accepted segment contributes,
`k` being the current `actualStripCount`.  A segment shorter than
`minSegmentLength` contributes none (the `return` of line 110). -/
def segPhotos (C : Ctx) (seg : Line) (k : ℕ) : List PhotoPoint :=
  if C.geo.length seg * 1000 < C.minSeg then []
  else ((List.range (stepCountOf C seg)).foldl (sampStep C k seg) ([], 0)).1

/-- The mutable state of the main loop: `photoPoints`, `stripLines`,
`totalStripLengthKm`, `actualStripCount`. -/
structure StripState where
  photoPoints : List PhotoPoint
  stripLines : List StripLine
  totalLen : ℚ
  actual : ℕ
deriving DecidableEq

/-- Lines 98-127: processing of one accepted segment of candidate
strip `i`: push the rotated-back strip line with id
`i + "-" + stripLines.length`, add its length, and append its photo
points (whose `stripIndex` is the current `actualStripCount`). -/
def pushSeg (C : Ctx) (i : ℕ) (st : StripState) (seg : Line) : StripState :=
  { photoPoints := st.photoPoints ++ segPhotos C seg st.actual
    stripLines := st.stripLines ++ [{ id := mkId i st.stripLines.length,
                                      coordinates := lineBack C seg }]
    totalLen := st.totalLen + C.geo.length seg
    actual := st.actual }

/-- Lines 95-129: one piece of the split; the second component of the
accumulator is `stripSegments`. -/
def segStep (C : Ctx) (i : ℕ) (p : StripState × ℕ) (seg : Line) : StripState × ℕ :=
  if segAccept C seg then (pushSeg C i p.1 seg, p.2 + 1) else p

/-- Lines 85-132: one candidate strip: split the probe line, process
each accepted piece, and advance `actualStripCount` when at least one
piece was accepted (line 131). -/
def stripStep (C : Ctx) (st : StripState) (i : ℕ) : StripState :=
  if 0 < ((segmentsOf C i).foldl (segStep C i) (st, 0)).2 then
    { ((segmentsOf C i).foldl (segStep C i) (st, 0)).1 with
      actual := ((segmentsOf C i).foldl (segStep C i) (st, 0)).1.actual + 1 }
  else ((segmentsOf C i).foldl (segStep C i) (st, 0)).1

/-- The state before the loop (lines 80-83). -/
def initState : StripState := ⟨[], [], 0, 0⟩

/-- The whole loop of lines 85-132. -/
def runStrips (C : Ctx) : StripState :=
  (List.range C.numCandidates.toNat).foldl (stripStep C) initState

/-- Lines 134-150: the value returned on success, with
`estTimeMin = ceil((totalStripLengthKm / 0.6) * 60)` exactly as line
136/143 computes it. -/
def okPayload (geo : Geo) (g : GeoJSON) (pd : ParsedDrone) (po : ParsedOpts) :
    CalcResult :=
  let C := ctxOf geo g pd po
  let st := runStrips C
  { photoPoints := st.photoPoints
    stripLines := st.stripLines
    summaryStats :=
      { areaHa := jsToFixed2 (geo.area C.origPoly / 10000)
        numStrips := st.actual
        numPhotos := st.photoPoints.length
        totalLengthKm := jsToFixed2 st.totalLen
        estTimeMin := ⌈st.totalLen / (3 / 5) * 60⌉ } }

/-- Lines 48-53 and onward: the footprint check (`!sensorW_m ||
!sensorH_m || !focal_m || !height`) and, when it passes, the rest of
the function. -/
def calcChecked (geo : Geo) (g : GeoJSON) (pd : ParsedDrone) (po : ParsedOpts) :
    Except CalcError CalcResult :=
  if pd.sensorW_px * pd.pixelSize_m = 0 ∨ pd.sensorH_px * pd.pixelSize_m = 0 ∨
      pd.focal_m = 0 ∨ po.height = 0 then
    .error .missingParameterError
  else .ok (okPayload geo g pd po)

/-- `calculateStrips(polygonGeoJSON, drone, options)`, lines 32-151 of
the source.  Lines 33-35: missing argument, falsy `type` (the empty
string) or a `type` other than `"Polygon"` throw the input-type
error, before anything else runs. -/
def calculateStrips (geo : Geo) (polygonGeoJSON : Option GeoJSON)
    (drone : Drone) (options : Options) : Except CalcError CalcResult :=
  match polygonGeoJSON with
  | none => .error .inputTypeError
  | some g =>
    if g.type = "" ∨ g.type ≠ "Polygon" then .error .inputTypeError
    else calcChecked geo g (parseDrone drone) (parseOpts options)

/-- The context a call works in, from the raw arguments. -/
def theCtx (geo : Geo) (g : GeoJSON) (drone : Drone) (options : Options) : Ctx :=
  ctxOf geo g (parseDrone drone) (parseOpts options)

/-- Candidate strip `i` produced at least one accepted segment. -/
def productiveB (C : Ctx) (i : ℕ) : Bool :=
  (segmentsOf C i).any (segAccept C)

/-- The strip ids of a successful result (`[]` on an error). -/
def okStripIds (r : Except CalcError CalcResult) : List String :=
  match r with
  | .ok v => v.stripLines.map StripLine.id
  | .error _ => []

/-- The summary of a successful result (zeros on an error). -/
def okSummary (r : Except CalcError CalcResult) : SummaryStats :=
  match r with
  | .ok v => v.summaryStats
  | .error _ => ⟨0, 0, 0, 0, 0⟩

/-!
A concrete, fully executable geometry instance.  It is a planar model
over exact rationals: coordinates are read as planar kilometers, and it
is intended for inputs whose flight direction is 0 (its rotation is the
identity, which is what the pipeline applies when `direction` is 0 and
the rotation angle vanishes).  Its split, containment and interpolation
primitives implement real planar computational geometry for the shapes
the pipeline probes with: vertical scan lines against a polygon whose
first ring is closed.  Like Turf.js, its containment test counts
boundary points as inside.
-/

/-- Manhattan distance; it agrees with the planar euclidean distance on
the axis-aligned point pairs the pipeline measures when the flight
direction is 0. -/
def pDist (p q : Point) : ℚ := |q.1 - p.1| + |q.2 - p.2|

/-- Planar destination for the three bearings the source uses
(0 = north, 90 = east, 180 = south). -/
def pDest (p : Point) (d : ℚ) (bearing : ℚ) : Point :=
  if bearing = 0 then (p.1, p.2 + d)
  else if bearing = 90 then (p.1 + d, p.2)
  else if bearing = 180 then (p.1, p.2 - d)
  else p

/-- Mean of the vertices of the first ring. -/
def pCentroid (poly : Poly) : Point :=
  let ring := poly.headD []
  let n : ℚ := ring.length
  ((ring.foldl (fun a p => a + p.1) 0) / n, (ring.foldl (fun a p => a + p.2) 0) / n)

/-- Axis-aligned bounding box of all vertices. -/
def pBBox (poly : Poly) : BBox :=
  match poly.flatten with
  | [] => ⟨0, 0, 0, 0⟩
  | p :: rest =>
    rest.foldl
      (fun b q => ⟨min b.minX q.1, min b.minY q.2, max b.maxX q.1, max b.maxY q.2⟩)
      ⟨p.1, p.2, p.1, p.2⟩

/-- The edges of a closed ring (consecutive vertex pairs). -/
def ringEdges (ring : List Point) : List (Point × Point) :=
  ring.zip ring.tail

/-- Is `p` on the closed segment from `a` to `b`? -/
def onSegB (p a b : Point) : Bool :=
  (p.1 - a.1) * (b.2 - a.2) = (p.2 - a.2) * (b.1 - a.1) ∧
    min a.1 b.1 ≤ p.1 ∧ p.1 ≤ max a.1 b.1 ∧
    min a.2 b.2 ≤ p.2 ∧ p.2 ≤ max a.2 b.2

/-- Even-odd point-in-polygon test against the first ring, with
boundary points counted as inside (Turf's default). -/
def pInPoly (p : Point) (poly : Poly) : Bool :=
  let ring := poly.headD []
  let edges := ringEdges ring
  if edges.any (fun e => onSegB p e.1 e.2) then true
  else
    (edges.countP (fun e =>
      ((e.1.2 ≤ p.2 ∧ p.2 < e.2.2) ∨ (e.2.2 ≤ p.2 ∧ p.2 < e.1.2)) ∧
        p.1 < e.1.1 + (p.2 - e.1.2) * (e.2.1 - e.1.1) / (e.2.2 - e.1.2))) % 2 = 1

/-- Insertion into a sorted list of rationals. -/
def insertQ (x : ℚ) : List ℚ → List ℚ
  | [] => [x]
  | y :: ys => if x ≤ y then x :: y :: ys else y :: insertQ x ys

/-- Insertion sort. -/
def sortQ : List ℚ → List ℚ
  | [] => []
  | x :: xs => insertQ x (sortQ xs)

/-- Remove adjacent duplicates of a sorted list. -/
def dedupAdj : List ℚ → List ℚ
  | [] => []
  | [x] => [x]
  | x :: y :: r => if x = y then dedupAdj (y :: r) else x :: dedupAdj (y :: r)

/-- Consecutive pieces of the vertical line `x = c` cut at the listed
ordinates. -/
def piecesOf (c : ℚ) : List ℚ → List Line
  | a :: b :: r => [(c, a), (c, b)] :: piecesOf c (b :: r)
  | _ => []

/-- Split of a vertical probe line at its crossings with the edges of
the first ring; like `turf.lineSplit` it returns the empty collection
when the line does not meet the polygon, and otherwise all pieces from
one end of the line to the other. -/
def pLineSplit (l : Line) (poly : Poly) : List Line :=
  match l with
  | [] => []
  | p0 :: _ =>
    let c := p0.1
    if l.any (fun p => p.1 ≠ c) then []
    else
      let ys := l.map Prod.snd
      let yLo := ys.foldl min (ys.headD 0)
      let yHi := ys.foldl max (ys.headD 0)
      let ring := poly.headD []
      let cross := (ringEdges ring).filterMap (fun e =>
        if e.1.1 ≠ e.2.1 ∧ min e.1.1 e.2.1 ≤ c ∧ c ≤ max e.1.1 e.2.1 then
          some (e.1.2 + (c - e.1.1) * (e.2.2 - e.1.2) / (e.2.1 - e.1.1))
        else none)
      let cuts := (dedupAdj (sortQ cross)).filter (fun y => yLo < y ∧ y < yHi)
      if cross.isEmpty then [] else piecesOf c (yLo :: (cuts ++ [yHi]))

/-- Coordinate-wise midpoint. -/
def pMid (p q : Point) : Point := ((p.1 + q.1) / 2, (p.2 + q.2) / 2)

/-- Polyline length. -/
def pLength (l : Line) : ℚ :=
  ((l.zip l.tail).map (fun e => pDist e.1 e.2)).foldl (· + ·) 0

/-- Walk a distance `d` along the polyline starting at `p`; clamps to
the far end, like `turf.along`. -/
def alongAux : Point → List Point → ℚ → Point
  | p, [], _ => p
  | p, q :: rest, d =>
    let e := pDist p q
    if d ≤ e then (p.1 + (d / e) * (q.1 - p.1), p.2 + (d / e) * (q.2 - p.2))
    else alongAux q rest (d - e)

/-- `turf.along` for the planar model. -/
def pAlong (l : Line) (d : ℚ) : Point :=
  match l with
  | [] => (0, 0)
  | p :: rest => alongAux p rest d

/-- Twice the signed shoelace area of the first ring. -/
def shoelace2 (ring : List Point) : ℚ :=
  ((ringEdges ring).map (fun e => e.1.1 * e.2.2 - e.2.1 * e.1.2)).foldl (· + ·) 0

/-- Planar area in square meters (coordinates are kilometers). -/
def pArea (poly : Poly) : ℚ := |shoelace2 (poly.headD [])| / 2 * 1000000

/-- The planar geometry instance. -/
def pGeo : Geo :=
  { distance := pDist
    destination := pDest
    transformRotate := fun _ _ p => p
    centroid := pCentroid
    bbox := pBBox
    lineSplit := pLineSplit
    midpoint := pMid
    booleanPointInPolygon := pInPoly
    length := pLength
    along := pAlong
    area := pArea }

/-!  Concrete inputs used by the witnesses and counterexamples. -/

/-- A 2 km wide diamond (rhombus) survey area. -/
def diamondG : GeoJSON :=
  ⟨"Polygon", [[(0, 0), (1, 1), (2, 0), (1, -1), (0, 0)]]⟩

/-- A 2 km × 1 km rectangle survey area. -/
def rectG : GeoJSON :=
  ⟨"Polygon", [[(0, 0), (0, 1), (2, 1), (2, 0), (0, 0)]]⟩

/-- A camera whose ground footprint at 100 m is 2000 m × 1000 m in the
planar model's kilometer units. -/
def droneA : Drone :=
  { sensorWidth_px := some 4000, sensorHeight_px := some 2000,
    pixelSize_um := some 5, focalLength_mm := some 1 }

/-- Height 100 m, everything else defaulted. -/
def optsA : Options :=
  { height := some 100, frontlap := none, sidelap := none,
    direction := none, minSegmentLength := none }

instance : DecidableEq (Except CalcError CalcResult) := fun a b =>
  match a, b with
  | .error e, .error f =>
    match decEq e f with
    | isTrue h => isTrue (h ▸ rfl)
    | isFalse h => isFalse (fun hc => h (Except.error.inj hc))
  | .ok x, .ok y =>
    match decEq x y with
    | isTrue h => isTrue (h ▸ rfl)
    | isFalse h => isFalse (fun hc => h (Except.ok.inj hc))
  | .error _, .ok _ => isFalse (fun hc => Except.noConfusion hc)
  | .ok _, .error _ => isFalse (fun hc => Except.noConfusion hc)

/-- The diamond run of `calculateStrips`: two productive candidate
strips (indices 2 and 3 of four candidates), nine photo points. -/
def diamondRes : CalcResult :=
  { photoPoints :=
      [⟨-4/5, 4/5, 0, 0⟩, ⟨-1/2, 4/5, 0, 1⟩, ⟨-1/5, 4/5, 0, 2⟩,
       ⟨1/10, 4/5, 0, 3⟩, ⟨2/5, 4/5, 0, 4⟩, ⟨7/10, 4/5, 0, 5⟩,
       ⟨-2/5, 8/5, 1, 0⟩, ⟨-1/10, 8/5, 1, 1⟩, ⟨1/5, 8/5, 1, 2⟩]
    stripLines :=
      [⟨"2-0", [(4/5, -4/5), (4/5, 4/5)]⟩,
       ⟨"3-1", [(8/5, -2/5), (8/5, 2/5)]⟩]
    summaryStats := ⟨200, 2, 9, 12/5, 240⟩ }

/-- The options of the unbounded-strip-count scenario: sidelap
0.99975 on the diamond makes the spacing 5 millimeters. -/
def optsHighSidelap : Options := { optsA with sidelap := some (399999 / 400000) }

/-- `options` with the two overlap fractions replaced. -/
def withOverlaps (o : Options) (s f : Option ℚ) : Options :=
  { o with sidelap := s, frontlap := f }

/-- The rectangle run with default overlaps: three strips of 1 km,
four photos each. -/
def rectResA : CalcResult :=
  { photoPoints :=
      [⟨0, 0, 0, 0⟩, ⟨3/10, 0, 0, 1⟩, ⟨3/5, 0, 0, 2⟩, ⟨9/10, 0, 0, 3⟩,
       ⟨0, 4/5, 1, 0⟩, ⟨3/10, 4/5, 1, 1⟩, ⟨3/5, 4/5, 1, 2⟩, ⟨9/10, 4/5, 1, 3⟩,
       ⟨0, 8/5, 2, 0⟩, ⟨3/10, 8/5, 2, 1⟩, ⟨3/5, 8/5, 2, 2⟩, ⟨9/10, 8/5, 2, 3⟩]
    stripLines :=
      [⟨"1-0", [(0, 0), (0, 1)]⟩,
       ⟨"2-1", [(4/5, 0), (4/5, 1)]⟩,
       ⟨"3-2", [(8/5, 0), (8/5, 1)]⟩]
    summaryStats := ⟨200, 3, 12, 3, 300⟩ }

/-- The rectangle run with sidelap 0.25 and frontlap 0.5: two strips,
three photos each. -/
def rectResB : CalcResult :=
  { photoPoints :=
      [⟨0, 0, 0, 0⟩, ⟨1/2, 0, 0, 1⟩, ⟨1, 0, 0, 2⟩,
       ⟨0, 3/2, 1, 0⟩, ⟨1/2, 3/2, 1, 1⟩, ⟨1, 3/2, 1, 2⟩]
    stripLines :=
      [⟨"1-0", [(0, 0), (0, 1)]⟩,
       ⟨"2-1", [(3/2, 0), (3/2, 1)]⟩]
    summaryStats := ⟨200, 2, 6, 2, 200⟩ }

/-- The middle accepted segment of the rectangle run. -/
def segR : Line := [(4/5, 0), (4/5, 1)]

/-- Every listed photo point passes the library containment test
against the original polygon. -/
def photosIn (C : Ctx) (l : List PhotoPoint) : Prop :=
  ∀ pt ∈ l, C.geo.booleanPointInPolygon (pt.lng, pt.lat) C.origPoly = true

/-- Every listed strip line sits at an id whose second component is
its global position in the list. -/
def idsGlobal (ls : List StripLine) : Prop :=
  ∀ n (hn : n < ls.length), ∃ i, (ls[n]).id = mkId i n

/-!  Helper lemmas on the main loop. -/

/-- A successful call returns exactly the payload built after the two
checks. -/
theorem calculateStrips_ok_inv (geo : Geo) (g : GeoJSON) (drone : Drone)
    (opts : Options) (r : CalcResult)
    (h : calculateStrips geo (some g) drone opts = .ok r) :
    r = okPayload geo g (parseDrone drone) (parseOpts opts) := by
  simp only [calculateStrips, calcChecked] at h
  by_cases h1 : g.type = "" ∨ g.type ≠ "Polygon"
  · rw [if_pos h1] at h; exact Except.noConfusion h
  · rw [if_neg h1] at h
    by_cases h2 : (parseDrone drone).sensorW_px * (parseDrone drone).pixelSize_m = 0 ∨
        (parseDrone drone).sensorH_px * (parseDrone drone).pixelSize_m = 0 ∨
        (parseDrone drone).focal_m = 0 ∨ (parseOpts opts).height = 0
    · rw [if_pos h2] at h; exact Except.noConfusion h
    · rw [if_neg h2] at h; exact (Except.ok.inj h).symm

/-- The inner fold over split pieces does not change `actualStripCount`. -/
theorem segFold_actual (C : Ctx) (i : ℕ) :
    ∀ (l : List Line) (p : StripState × ℕ),
      ((l.foldl (segStep C i) p).1).actual = p.1.actual := by
  intro l
  induction l with
  | nil => intro p; rfl
  | cons a t ih =>
    intro p
    rw [List.foldl_cons, ih]
    unfold segStep
    split
    · rfl
    · rfl

/-- The inner fold counts the accepted pieces in `stripSegments`. -/
theorem segFold_snd (C : Ctx) (i : ℕ) :
    ∀ (l : List Line) (p : StripState × ℕ),
      (l.foldl (segStep C i) p).2 = p.2 + l.countP (segAccept C) := by
  intro l
  induction l with
  | nil => intro p; simp
  | cons a t ih =>
    intro p
    rw [List.foldl_cons, ih]
    by_cases h : segAccept C a = true
    · simp [segStep, h, List.countP_cons]
      omega
    · simp [segStep, h, List.countP_cons]

/-- One candidate strip advances `actualStripCount` exactly when it is
productive. -/
theorem stripStep_actual (C : Ctx) (st : StripState) (i : ℕ) :
    (stripStep C st i).actual =
      st.actual + (if productiveB C i = true then 1 else 0) := by
  have hsnd := segFold_snd C i (segmentsOf C i) (st, 0)
  have hact := segFold_actual C i (segmentsOf C i) (st, 0)
  unfold stripStep
  by_cases h : productiveB C i = true
  · have hpos : 0 < ((segmentsOf C i).foldl (segStep C i) (st, 0)).2 := by
      rw [hsnd]
      have := List.countP_pos_iff (p := segAccept C) (l := segmentsOf C i)
      simp only [Nat.zero_add]
      exact this.mpr (List.any_eq_true.mp h)
    rw [if_pos hpos, if_pos h]
    simpa using hact
  · have hz : ((segmentsOf C i).foldl (segStep C i) (st, 0)).2 = 0 := by
      rw [hsnd]
      simp only [Nat.zero_add]
      rw [List.countP_eq_zero]
      intro a ha hacc
      exact h (List.any_eq_true.mpr ⟨a, ha, hacc⟩)
    rw [if_neg (by omega), if_neg h]
    simpa using hact

/-- Over any list of candidate indices, the loop adds one to
`actualStripCount` per productive index. -/
theorem foldStrips_actual (C : Ctx) :
    ∀ (l : List ℕ) (st : StripState),
      (l.foldl (stripStep C) st).actual = st.actual + l.countP (productiveB C) := by
  intro l
  induction l with
  | nil => intro st; simp
  | cons a t ih =>
    intro st
    rw [List.foldl_cons, ih, stripStep_actual]
    by_cases h : productiveB C a = true
    · simp [h, List.countP_cons]
      omega
    · simp [h, List.countP_cons]

/-- `actualStripCount` at the end of the loop is the number of
productive candidate strips. -/
theorem runStrips_actual (C : Ctx) :
    (runStrips C).actual =
      (List.range C.numCandidates.toNat).countP (productiveB C) := by
  unfold runStrips
  rw [foldStrips_actual]
  simp [initState]

/-- The sampling loop only appends points that passed the containment
test. -/
theorem sampFold_photosIn (C : Ctx) (k : ℕ) (seg : Line) :
    ∀ (l : List ℕ) (acc : List PhotoPoint × ℕ), photosIn C acc.1 →
      photosIn C ((l.foldl (sampStep C k seg) acc).1) := by
  intro l
  induction l with
  | nil => intro acc hacc; exact hacc
  | cons a t ih =>
    intro acc hacc
    rw [List.foldl_cons]
    apply ih
    unfold sampStep
    by_cases h : C.geo.booleanPointInPolygon (sampleAt C seg a) C.origPoly = true
    · rw [if_pos h]
      intro pt hpt
      rcases List.mem_append.mp hpt with hl | hr
      · exact hacc pt hl
      · rcases List.mem_singleton.mp hr with rfl
        simpa using h
    · rw [if_neg h]
      exact hacc

/-- All photo points of a segment pass the containment test. -/
theorem segPhotos_photosIn (C : Ctx) (seg : Line) (k : ℕ) :
    photosIn C (segPhotos C seg k) := by
  unfold segPhotos
  split
  · intro pt hpt; exact absurd hpt (List.not_mem_nil pt)
  · exact sampFold_photosIn C k seg _ ([], 0) (fun pt hpt => absurd hpt (List.not_mem_nil pt))

/-- `pushSeg` preserves the containment invariant. -/
theorem pushSeg_photosIn (C : Ctx) (i : ℕ) (st : StripState) (seg : Line)
    (h : photosIn C st.photoPoints) :
    photosIn C (pushSeg C i st seg).photoPoints := by
  intro pt hpt
  rcases List.mem_append.mp hpt with hl | hr
  · exact h pt hl
  · exact segPhotos_photosIn C seg st.actual pt hr

/-- The inner fold preserves the containment invariant. -/
theorem segFold_photosIn (C : Ctx) (i : ℕ) :
    ∀ (l : List Line) (p : StripState × ℕ), photosIn C p.1.photoPoints →
      photosIn C ((l.foldl (segStep C i) p).1).photoPoints := by
  intro l
  induction l with
  | nil => intro p hp; exact hp
  | cons a t ih =>
    intro p hp
    rw [List.foldl_cons]
    apply ih
    unfold segStep
    by_cases h : segAccept C a = true
    · rw [if_pos h]; exact pushSeg_photosIn C i p.1 a hp
    · rw [if_neg h]; exact hp

/-- The whole loop preserves the containment invariant. -/
theorem foldStrips_photosIn (C : Ctx) :
    ∀ (l : List ℕ) (st : StripState), photosIn C st.photoPoints →
      photosIn C ((l.foldl (stripStep C) st)).photoPoints := by
  intro l
  induction l with
  | nil => intro st hst; exact hst
  | cons a t ih =>
    intro st hst
    rw [List.foldl_cons]
    apply ih
    unfold stripStep
    split
    · exact segFold_photosIn C a (segmentsOf C a) (st, 0) hst
    · exact segFold_photosIn C a (segmentsOf C a) (st, 0) hst

/-- The containment invariant at the end of the loop. -/
theorem runStrips_photosIn (C : Ctx) : photosIn C (runStrips C).photoPoints :=
  foldStrips_photosIn C _ initState (fun pt hpt => absurd hpt (List.not_mem_nil pt))

/-- Appending one strip line whose id carries the current list length
preserves the id invariant. -/
theorem idsGlobal_append (ls : List StripLine) (sl : StripLine) (i : ℕ)
    (h : idsGlobal ls) (hsl : sl.id = mkId i ls.length) :
    idsGlobal (ls ++ [sl]) := by
  intro n hn
  have hn2 : n < ls.length + 1 := by
    rw [List.length_append] at hn
    simpa using hn
  by_cases hlt : n < ls.length
  · obtain ⟨j, hj⟩ := h n hlt
    exact ⟨j, by rw [List.getElem_append_left hlt]; exact hj⟩
  · have hn3 : n = ls.length := by omega
    subst hn3
    exact ⟨i, by rw [List.getElem_concat_length ls sl ls.length rfl]; exact hsl⟩

/-- `pushSeg` appends one strip line whose id carries the current
list length. -/
theorem pushSeg_idsGlobal (C : Ctx) (i : ℕ) (st : StripState) (seg : Line)
    (h : idsGlobal st.stripLines) :
    idsGlobal (pushSeg C i st seg).stripLines :=
  idsGlobal_append st.stripLines _ i h rfl

/-- The inner fold preserves the id invariant. -/
theorem segFold_idsGlobal (C : Ctx) (i : ℕ) :
    ∀ (l : List Line) (p : StripState × ℕ), idsGlobal p.1.stripLines →
      idsGlobal ((l.foldl (segStep C i) p).1).stripLines := by
  intro l
  induction l with
  | nil => intro p hp; exact hp
  | cons a t ih =>
    intro p hp
    rw [List.foldl_cons]
    apply ih
    unfold segStep
    by_cases h : segAccept C a = true
    · rw [if_pos h]; exact pushSeg_idsGlobal C i p.1 a hp
    · rw [if_neg h]; exact hp

/-- The whole loop preserves the id invariant. -/
theorem foldStrips_idsGlobal (C : Ctx) :
    ∀ (l : List ℕ) (st : StripState), idsGlobal st.stripLines →
      idsGlobal ((l.foldl (stripStep C) st)).stripLines := by
  intro l
  induction l with
  | nil => intro st hst; exact hst
  | cons a t ih =>
    intro st hst
    rw [List.foldl_cons]
    apply ih
    unfold stripStep
    split
    · exact segFold_idsGlobal C a (segmentsOf C a) (st, 0) hst
    · exact segFold_idsGlobal C a (segmentsOf C a) (st, 0) hst

/-- The id invariant at the end of the loop. -/
theorem runStrips_idsGlobal (C : Ctx) : idsGlobal (runStrips C).stripLines :=
  foldStrips_idsGlobal C _ initState (fun n hn => absurd hn (by simp [initState]))

/-- The sampling loop keeps exactly the samples that pass the
containment test. -/
theorem sampFold_length (C : Ctx) (k : ℕ) (seg : Line) :
    ∀ (l : List ℕ) (acc : List PhotoPoint × ℕ),
      ((l.foldl (sampStep C k seg) acc).1).length =
        acc.1.length +
          l.countP (fun s => C.geo.booleanPointInPolygon (sampleAt C seg s) C.origPoly) := by
  intro l
  induction l with
  | nil => intro acc; simp
  | cons a t ih =>
    intro acc
    rw [List.foldl_cons, ih]
    by_cases h : C.geo.booleanPointInPolygon (sampleAt C seg a) C.origPoly = true
    · simp [sampStep, h, List.countP_cons]
      omega
    · simp [sampStep, h, List.countP_cons]

/-- The number of photo points a segment contributes. -/
theorem segPhotos_length (C : Ctx) (seg : Line) (k : ℕ) :
    (segPhotos C seg k).length =
      if C.geo.length seg * 1000 < C.minSeg then 0
      else (List.range (stepCountOf C seg)).countP
        (fun s => C.geo.booleanPointInPolygon (sampleAt C seg s) C.origPoly) := by
  unfold segPhotos
  split
  · rfl
  · rw [sampFold_length]
    simp

/-!  Claim theorems. -/

/-- C1: the code disagrees with the specified formula
`estTimeMin = ceil(totalLengthKm / 0.6)`.  On the diamond run the
total length is 2.4 km, so the specified value is `ceil(4) = 4`
minutes; line 136 of the source multiplies the minutes value by 60
once more (`(totalStripLengthKm / 0.6) * 60`), so the code returns
240, although its own comment states a cruise speed of 0.6 km/min. -/
theorem estTimeMin_bug :
    (okSummary (calculateStrips pGeo (some diamondG) droneA optsA)).estTimeMin = 240 ∧
    (okSummary (calculateStrips pGeo (some diamondG) droneA optsA)).totalLengthKm = 12 / 5 ∧
    ⌈(12 / 5 : ℚ) / (3 / 5)⌉ = (4 : ℤ) ∧ (240 : ℤ) ≠ 4 :=
  ⟨by decide, by decide, by decide, by decide⟩

/-- C2, counterexample: on the diamond run there are two logical
strips (`numStrips = 2`), each contributing exactly one accepted
segment, and the second strip's first accepted segment gets the id
`"3-1"`: its second component is the global segment count 1, not a
segment-within-strip ordinal restarted at 0, and its first component
is the candidate loop index 3, not the logical strip index 1.  Under
the claim that id would have been `mkId 3 0` (or `mkId 1 0` reading
`stripIndex` as the logical index). -/
theorem stripLine_ids_not_per_strip :
    okStripIds (calculateStrips pGeo (some diamondG) droneA optsA) = ["2-0", "3-1"] ∧
    (okSummary (calculateStrips pGeo (some diamondG) droneA optsA)).numStrips = 2 ∧
    mkId 3 0 ≠ "3-1" ∧ mkId 1 0 ≠ "3-1" :=
  ⟨by decide, by decide, by decide, by decide⟩

/-- C2, amended: every emitted strip line has an id of the form
`{candidateStripIndex}-{globalSegmentIndex}`: the second component of
the id of the `n`-th strip line of the output is `n`, its position in
the whole output list, so it does not restart per strip. -/
theorem stripLine_id_second_component_global
    (geo : Geo) (g : GeoJSON) (drone : Drone) (opts : Options) (r : CalcResult)
    (h : calculateStrips geo (some g) drone opts = .ok r) :
    ∀ n (hn : n < r.stripLines.length), ∃ i, (r.stripLines[n]).id = mkId i n := by
  have hr := calculateStrips_ok_inv geo g drone opts r h
  subst hr
  exact runStrips_idsGlobal (theCtx geo g drone opts)

/-- Witness for C2's amended theorem at the diamond run. -/
theorem stripLine_id_second_component_global_witness :
    ∃ i, (diamondRes.stripLines.get ⟨1, by decide⟩).id = mkId i 1 :=
  stripLine_id_second_component_global pGeo diamondG droneA optsA diamondRes
    (by decide) 1 (by decide)

/-- C3: no validation of the candidate-strip count exists.  With
sidelap 0.99975 the strip spacing over the 2 km diamond drops to 5 mm,
the candidate count is 400001 (a sane flight over this polygon needs
about four strips), and the call still returns a result instead of
rejecting the configuration: the loop of line 85 iterates over the
full candidate count. -/
theorem no_strip_count_validation :
    (theCtx pGeo diamondG droneA optsHighSidelap).numCandidates = 400001 ∧
    (calculateStrips pGeo (some diamondG) droneA optsHighSidelap).isOk = true :=
  ⟨by decide, rfl⟩

/-- C5: every returned photo point, read back as the `(lng, lat)` pair
that was stored from the rotated-back sample, passes the library's
point-in-polygon test against the original polygon
(`polygonGeoJSON.coordinates`, not the rotated one): line 118 of the
source admits a sample only under that test, and failing samples are
dropped with no other effect. -/
theorem photoPoints_inside_original_polygon
    (geo : Geo) (g : GeoJSON) (drone : Drone) (opts : Options) (r : CalcResult)
    (h : calculateStrips geo (some g) drone opts = .ok r) :
    ∀ pt ∈ r.photoPoints,
      geo.booleanPointInPolygon (pt.lng, pt.lat) g.coordinates = true := by
  have hr := calculateStrips_ok_inv geo g drone opts r h
  subst hr
  exact runStrips_photosIn (theCtx geo g drone opts)

/-- Witness for C5 at the diamond run: its first photo point is inside
the diamond. -/
theorem photoPoints_inside_original_polygon_witness :
    pGeo.booleanPointInPolygon ((4 : ℚ) / 5, (-4 : ℚ) / 5) diamondG.coordinates = true :=
  photoPoints_inside_original_polygon pGeo diamondG droneA optsA diamondRes
    (by decide) ⟨-4/5, 4/5, 0, 0⟩ (by decide)

/-- C6: on every successful call `summaryStats.numPhotos` is the
length of the returned photo list, and `summaryStats.numStrips` is the
number of candidate strips that produced at least one accepted
segment (line 131 advances `actualStripCount` only for those, so
unproductive candidates consume no logical index). -/
theorem summary_counts_correct
    (geo : Geo) (g : GeoJSON) (drone : Drone) (opts : Options) (r : CalcResult)
    (h : calculateStrips geo (some g) drone opts = .ok r) :
    r.summaryStats.numPhotos = r.photoPoints.length ∧
    r.summaryStats.numStrips =
      (List.range (theCtx geo g drone opts).numCandidates.toNat).countP
        (productiveB (theCtx geo g drone opts)) := by
  have hr := calculateStrips_ok_inv geo g drone opts r h
  subst hr
  exact ⟨rfl, runStrips_actual (theCtx geo g drone opts)⟩

/-- Witness for C6 at the diamond run. -/
theorem summary_counts_correct_witness :
    diamondRes.summaryStats.numPhotos = diamondRes.photoPoints.length ∧
    diamondRes.summaryStats.numStrips =
      (List.range (theCtx pGeo diamondG droneA optsA).numCandidates.toNat).countP
        (productiveB (theCtx pGeo diamondG droneA optsA)) :=
  summary_counts_correct pGeo diamondG droneA optsA diamondRes (by decide)

/-- The footprint check of line 51 is equivalent to one of the five
camera/flight parameters resolving to zero or missing. -/
theorem checkCond_iff (d : Drone) (o : Options) :
    ((parseDrone d).sensorW_px * (parseDrone d).pixelSize_m = 0 ∨
     (parseDrone d).sensorH_px * (parseDrone d).pixelSize_m = 0 ∨
     (parseDrone d).focal_m = 0 ∨ (parseOpts o).height = 0) ↔
    (jsOr d.sensorWidth_px 0 = 0 ∨ jsOr d.sensorHeight_px 0 = 0 ∨
     jsOr d.pixelSize_um 0 = 0 ∨ jsOr d.focalLength_mm 0 = 0 ∨
     jsOr o.height 0 = 0) := by
  have h6 : (1 / 1000000 : ℚ) ≠ 0 := by norm_num
  have h3 : (1 / 1000 : ℚ) ≠ 0 := by norm_num
  simp only [parseDrone, parseOpts, mul_eq_zero, h6, h3, or_false]
  tauto

/-- C4: `calculateStrips` fails synchronously in exactly two ways, and
before any strip work: a missing argument or a `type` other than
`"Polygon"` raises the input-type error of line 34; otherwise, if any
of sensor width, sensor height, pixel pitch, focal length or flight
height resolves to zero or missing (equivalently, if a footprint
factor of line 49-50 vanishes), the missing-parameter error of line 52
is raised; otherwise the call returns a full result.  The `Except`
model returns nothing but the error in the two first cases, so no
partial result can escape. -/
theorem calculateStrips_error_cases (geo : Geo) (p : Option GeoJSON)
    (drone : Drone) (opts : Options) :
    (p = none → calculateStrips geo p drone opts = .error .inputTypeError) ∧
    (∀ g, p = some g → g.type ≠ "Polygon" →
      calculateStrips geo p drone opts = .error .inputTypeError) ∧
    (∀ g, p = some g → g.type = "Polygon" →
      (jsOr drone.sensorWidth_px 0 = 0 ∨ jsOr drone.sensorHeight_px 0 = 0 ∨
       jsOr drone.pixelSize_um 0 = 0 ∨ jsOr drone.focalLength_mm 0 = 0 ∨
       jsOr opts.height 0 = 0) →
      calculateStrips geo p drone opts = .error .missingParameterError) ∧
    (∀ g, p = some g → g.type = "Polygon" →
      ¬(jsOr drone.sensorWidth_px 0 = 0 ∨ jsOr drone.sensorHeight_px 0 = 0 ∨
        jsOr drone.pixelSize_um 0 = 0 ∨ jsOr drone.focalLength_mm 0 = 0 ∨
        jsOr opts.height 0 = 0) →
      calculateStrips geo p drone opts =
        .ok (okPayload geo g (parseDrone drone) (parseOpts opts))) := by
  refine ⟨?_, ?_, ?_, ?_⟩
  · rintro rfl; rfl
  · rintro g rfl hne
    simp only [calculateStrips]
    rw [if_pos (Or.inr hne)]
  · rintro g rfl htype hzero
    simp only [calculateStrips, calcChecked]
    rw [if_neg (by simp [htype]), if_pos ((checkCond_iff drone opts).mpr hzero)]
  · rintro g rfl htype hok
    simp only [calculateStrips, calcChecked]
    rw [if_neg (by simp [htype]),
      if_neg (fun hc => hok ((checkCond_iff drone opts).mp hc))]

/-- Witness for C4: the four cases at concrete inputs; in particular a
missing focal length with all other parameters present raises the
missing-parameter error, and the full diamond input succeeds. -/
theorem calculateStrips_error_cases_witness :
    calculateStrips pGeo none droneA optsA = .error .inputTypeError ∧
    calculateStrips pGeo (some ⟨"Point", diamondG.coordinates⟩) droneA optsA =
      .error .inputTypeError ∧
    calculateStrips pGeo (some diamondG)
      { droneA with focalLength_mm := none } optsA = .error .missingParameterError ∧
    calculateStrips pGeo (some diamondG) droneA optsA =
      .ok (okPayload pGeo diamondG (parseDrone droneA) (parseOpts optsA)) :=
  ⟨(calculateStrips_error_cases pGeo none droneA optsA).1 rfl,
   (calculateStrips_error_cases pGeo (some ⟨"Point", diamondG.coordinates⟩)
      droneA optsA).2.1 _ rfl (by decide),
   (calculateStrips_error_cases pGeo (some diamondG)
      { droneA with focalLength_mm := none } optsA).2.2.1 _ rfl rfl (by decide),
   (calculateStrips_error_cases pGeo (some diamondG) droneA optsA).2.2.2 _ rfl rfl
      (by decide)⟩

/-- C7: under a nonnegative span and a positive spacing (the source
library returns nonnegative distances; spacing 0 would not terminate),
the candidate-strip count is exactly `ceil((span + spacing)/spacing)`
(the clamp of line 75 never fires) and is at least 1; the span is the
library distance between the midpoints of the left and right bounding
box edges, scaled to meters, and the first candidate scan line is
based one spacing west of the left-edge midpoint (line 78 then line 87
with `i = 0`). -/
theorem candidate_strip_count_formula (geo : Geo) (g : GeoJSON) (drone : Drone)
    (opts : Options) (C : Ctx) (hC : C = theCtx geo g drone opts)
    (hspan : 0 ≤ C.spanM) (hsp : 0 < C.stripSpacing) :
    C.numCandidates = ⌈(C.spanM + C.stripSpacing) / C.stripSpacing⌉ ∧
    1 ≤ C.numCandidates ∧
    C.spanM = geo.distance C.leftPoint C.rightPoint * 1000 ∧
    C.leftPoint = (C.bb.minX, (C.bb.minY + C.bb.maxY) / 2) ∧
    C.rightPoint = (C.bb.maxX, (C.bb.minY + C.bb.maxY) / 2) ∧
    C.startPoint = geo.destination C.leftPoint (-C.stripSpacing / 1000) 90 ∧
    offsetPoint C 0 = geo.destination C.startPoint ((0 : ℚ) * C.stripSpacing / 1000) 90 := by
  have hpos : (0 : ℚ) < (C.spanM + C.stripSpacing) / C.stripSpacing :=
    div_pos (by linarith) hsp
  have hceil : 1 ≤ ⌈(C.spanM + C.stripSpacing) / C.stripSpacing⌉ :=
    Int.ceil_pos.mpr hpos
  have hval : C.numCandidates =
      if ⌈(C.spanM + C.stripSpacing) / C.stripSpacing⌉ < 1 then 1
      else ⌈(C.spanM + C.stripSpacing) / C.stripSpacing⌉ := by
    subst hC; rfl
  refine ⟨?_, ?_, ?_, ?_, ?_, ?_, ?_⟩
  · rw [hval, if_neg (by omega)]
  · rw [hval, if_neg (by omega)]; exact hceil
  · subst hC; rfl
  · subst hC; rfl
  · subst hC; rfl
  · subst hC; rfl
  · subst hC; rfl

/-- Witness for C7 at the diamond run: span 2000 m, spacing 800 m,
four candidate strips. -/
theorem candidate_strip_count_formula_witness :
    (theCtx pGeo diamondG droneA optsA).numCandidates =
      ⌈((theCtx pGeo diamondG droneA optsA).spanM +
        (theCtx pGeo diamondG droneA optsA).stripSpacing) /
        (theCtx pGeo diamondG droneA optsA).stripSpacing⌉ ∧
    (theCtx pGeo diamondG droneA optsA).numCandidates = 4 :=
  ⟨(candidate_strip_count_formula pGeo diamondG droneA optsA _ rfl
      (by decide) (by decide)).1,
   by decide⟩

/-- C8: for any segment handed to `pushSeg` (an accepted segment):
its rotated-back geometry is always emitted and its length always
added to the running total; if its length in meters is below
`minSegmentLength`, it contributes no photo points (the `return` of
line 110 fires after the emission); otherwise the sampling loop runs
for `s = 0 .. floor(length / photoSpacing)` inclusive, the sample of
step `s` being taken `s * photoSpacing` meters along the segment. -/
theorem segment_emission_and_sampling (C : Ctx) (i : ℕ) (st : StripState)
    (seg : Line) (hlen : 0 ≤ C.geo.length seg) (hps : 0 < C.photoSpacing) :
    (pushSeg C i st seg).stripLines =
      st.stripLines ++ [{ id := mkId i st.stripLines.length,
                          coordinates := lineBack C seg }] ∧
    (pushSeg C i st seg).totalLen = st.totalLen + C.geo.length seg ∧
    (pushSeg C i st seg).photoPoints = st.photoPoints ++ segPhotos C seg st.actual ∧
    (C.geo.length seg * 1000 < C.minSeg → segPhotos C seg st.actual = []) ∧
    stepCountOf C seg = (⌊C.geo.length seg * 1000 / C.photoSpacing⌋).toNat + 1 ∧
    (∀ s, s < stepCountOf C seg →
      sampleAt C seg s =
        rotBackPoint C (C.geo.along seg ((s : ℚ) * C.photoSpacing / 1000))) := by
  refine ⟨rfl, rfl, rfl, ?_, ?_, fun s _ => rfl⟩
  · intro hshort
    unfold segPhotos
    rw [if_pos hshort]
  · have hq : (0 : ℚ) ≤ C.geo.length seg * 1000 / C.photoSpacing :=
      div_nonneg (by linarith) hps.le
    have hfl : 0 ≤ ⌊C.geo.length seg * 1000 / C.photoSpacing⌋ :=
      Int.floor_nonneg.mpr hq
    unfold stepCountOf
    omega

/-- Witness for C8 at the first accepted diamond segment: 1600 m long,
photo spacing 300 m, so `floor(1600/300) + 1 = 6` samples, at steps
0 through 5 inclusive. -/
theorem segment_emission_and_sampling_witness :
    stepCountOf (theCtx pGeo diamondG droneA optsA)
      [((4 : ℚ) / 5, (-4 : ℚ) / 5), ((4 : ℚ) / 5, (4 : ℚ) / 5)] = 6 := by
  have h := (segment_emission_and_sampling (theCtx pGeo diamondG droneA optsA)
    2 initState [((4 : ℚ) / 5, (-4 : ℚ) / 5), ((4 : ℚ) / 5, (4 : ℚ) / 5)]
    (by decide) (by decide)).2.2.2.2.1
  rw [h]
  decide

/-- `calculateStrips` reads `options` only through `parseOpts`. -/
theorem calculateStrips_congr_opts (geo : Geo) (p : Option GeoJSON) (drone : Drone)
    {o₁ o₂ : Options} (h : parseOpts o₁ = parseOpts o₂) :
    calculateStrips geo p drone o₁ = calculateStrips geo p drone o₂ := by
  cases p with
  | none => rfl
  | some g =>
    simp only [calculateStrips]
    rw [h]

/-- The missing-parameter branch of C4, restated for a parsed height
of zero (helper for the height clause of C10). -/
theorem calculateStrips_error_cases_aux (geo : Geo) (g : GeoJSON) (drone : Drone)
    (opts : Options) (htype : g.type = "Polygon")
    (hh : jsOr opts.height 0 = 0) :
    calculateStrips geo (some g) drone opts = .error .missingParameterError := by
  simp only [calculateStrips, calcChecked]
  rw [if_neg (by simp [htype]),
    if_pos (Or.inr (Or.inr (Or.inr (show (parseOpts opts).height = 0 from hh))))]

/-- C10: option values that are falsy after parsing are replaced by
the defaults rather than rejected: `frontlap = 0` behaves exactly as
`frontlap = 0.7`, `sidelap = 0` as `sidelap = 0.6`,
`minSegmentLength = 0` as `1`, and a missing or non-numeric
`direction` as `0`; consequently the parsed overlap fractions are
never zero, and a zero or missing/non-numeric height always raises the
missing-parameter error (on a well-typed polygon). -/
theorem falsy_options_defaults (geo : Geo) (p : Option GeoJSON) (drone : Drone)
    (o : Options) :
    calculateStrips geo p drone { o with frontlap := some 0 } =
      calculateStrips geo p drone { o with frontlap := some (7 / 10) } ∧
    calculateStrips geo p drone { o with sidelap := some 0 } =
      calculateStrips geo p drone { o with sidelap := some (3 / 5) } ∧
    calculateStrips geo p drone { o with minSegmentLength := some 0 } =
      calculateStrips geo p drone { o with minSegmentLength := some 1 } ∧
    calculateStrips geo p drone { o with direction := none } =
      calculateStrips geo p drone { o with direction := some 0 } ∧
    (parseOpts o).frontlap ≠ 0 ∧
    (parseOpts o).sidelap ≠ 0 ∧
    (∀ g, p = some g → g.type = "Polygon" →
      (o.height = none ∨ o.height = some 0) →
      calculateStrips geo p drone o = .error .missingParameterError) := by
  refine ⟨?_, ?_, ?_, ?_, ?_, ?_, ?_⟩
  · exact calculateStrips_congr_opts geo p drone (by norm_num [parseOpts, jsOr])
  · exact calculateStrips_congr_opts geo p drone (by norm_num [parseOpts, jsOr])
  · exact calculateStrips_congr_opts geo p drone (by norm_num [parseOpts, jsOr])
  · exact calculateStrips_congr_opts geo p drone (by norm_num [parseOpts, jsOr])
  · show jsOr o.frontlap (7 / 10) ≠ 0
    rcases o.frontlap with _ | q
    · norm_num [jsOr]
    · simp only [jsOr]
      split_ifs with h
      · norm_num
      · exact h
  · show jsOr o.sidelap (3 / 5) ≠ 0
    rcases o.sidelap with _ | q
    · norm_num [jsOr]
    · simp only [jsOr]
      split_ifs with h
      · norm_num
      · exact h
  · rintro g rfl htype hh
    refine (calculateStrips_error_cases_aux geo g drone o htype ?_)
    rcases hh with hh | hh <;> simp [jsOr, hh]

/-- Witness for C10: `frontlap = 0` on the diamond input behaves as
the default 0.7, and height 0 with everything else valid raises the
missing-parameter error. -/
theorem falsy_options_defaults_witness :
    calculateStrips pGeo (some diamondG) droneA { optsA with frontlap := some 0 } =
      calculateStrips pGeo (some diamondG) droneA { optsA with frontlap := some (7 / 10) } ∧
    calculateStrips pGeo (some diamondG) droneA
      ⟨some 0, none, none, none, none⟩ = .error .missingParameterError :=
  ⟨(falsy_options_defaults pGeo (some diamondG) droneA optsA).1,
   (falsy_options_defaults pGeo (some diamondG) droneA
      ⟨some 0, none, none, none, none⟩).2.2.2.2.2.2 diamondG rfl rfl (Or.inr rfl)⟩

/-- `countP` is monotone in the predicate. -/
theorem countP_le_countP {α : Type} (p q : α → Bool) :
    ∀ (l : List α), (∀ a ∈ l, p a = true → q a = true) →
      l.countP p ≤ l.countP q := by
  intro l
  induction l with
  | nil => intro _; simp
  | cons a t ih =>
    intro h
    rw [List.countP_cons, List.countP_cons]
    have ht := ih (fun x hx => h x (List.mem_cons_of_mem a hx))
    by_cases hp : p a = true
    · rw [if_pos hp, if_pos (h a (List.mem_cons_self a t) hp)]
      omega
    · rw [if_neg hp]
      by_cases hq : q a = true
      · rw [if_pos hq]; omega
      · rw [if_neg hq]; omega

/-- Among `0, …, n-1` there are `n - 1` positive indices. -/
theorem countP_range_oneLe (n : ℕ) :
    (List.range n).countP (fun i => decide (1 ≤ i)) = n - 1 := by
  induction n with
  | zero => rfl
  | succ m ih =>
    rw [List.range_succ, List.countP_append, ih]
    by_cases hm : 1 ≤ m
    · have h1 : ([m].countP fun i => decide (1 ≤ i)) = 1 := by
        simp [List.countP_cons, hm]
      rw [h1]
      omega
    · have hm0 : m = 0 := by omega
      subst hm0
      decide

/-- Among `0, …, n-1` there are at most `M` indices in `[1, M]`. -/
theorem countP_range_window (n M : ℕ) :
    (List.range n).countP (fun i => decide (1 ≤ i ∧ i ≤ M)) ≤ M := by
  induction n with
  | zero => simp
  | succ m ih =>
    rw [List.range_succ, List.countP_append]
    by_cases hm : 1 ≤ m ∧ m ≤ M
    · obtain ⟨hm1, hm2⟩ := hm
      have h1 : (List.range m).countP (fun i => decide (1 ≤ i ∧ i ≤ M)) ≤
          (List.range m).countP (fun i => decide (1 ≤ i)) := by
        apply countP_le_countP
        intro a _ ha
        simp only [decide_eq_true_eq] at ha ⊢
        exact ha.1
      have h2 := countP_range_oneLe m
      have h3 : ([m].countP fun i => decide (1 ≤ i ∧ i ≤ M)) ≤ 1 := by
        have := List.countP_le_length (l := [m])
          (p := fun i => decide (1 ≤ i ∧ i ≤ M))
        simpa using this
      omega
    · have h3 : ([m].countP fun i => decide (1 ≤ i ∧ i ≤ M)) = 0 := by
        simp [List.countP_cons, hm]
      omega

/-- Upper bound on the number of productive strips: if every
productive candidate index `i` is positive and sits at an offset
`(i-1) * spacing` short of the span `W`, there are at most
`ceil(W / spacing)` of them. -/
theorem run_actual_le (C : Ctx) (W : ℚ) (hsp : 0 < C.stripSpacing)
    (hsound : ∀ i, i < C.numCandidates.toNat → productiveB C i = true →
      1 ≤ i ∧ ((i : ℚ) - 1) * C.stripSpacing < W) :
    (runStrips C).actual ≤ (⌈W / C.stripSpacing⌉).toNat := by
  rw [runStrips_actual]
  have hmono : (List.range C.numCandidates.toNat).countP (productiveB C) ≤
      (List.range C.numCandidates.toNat).countP
        (fun i => decide (1 ≤ i ∧ i ≤ (⌈W / C.stripSpacing⌉).toNat)) := by
    apply countP_le_countP
    intro a ha hp
    obtain ⟨h1, h2⟩ := hsound a (List.mem_range.mp ha) hp
    have h4 : ((a : ℚ) - 1) < W / C.stripSpacing := (lt_div_iff₀ hsp).mpr h2
    have h5 : ((a : ℤ) - 1) < ⌈W / C.stripSpacing⌉ := by
      rw [Int.lt_ceil]
      push_cast
      exact h4
    simp only [decide_eq_true_eq]
    exact ⟨h1, by omega⟩
  exact le_trans hmono (countP_range_window _ _)

/-- Lower bound on the number of productive strips: if every positive
candidate index is productive, there are at least `ceil(span /
spacing)` of them (the candidate count over-provisions by exactly
one). -/
theorem le_run_actual (C : Ctx) (hsp : 0 < C.stripSpacing) (hW : 0 < C.spanM)
    (hNC : C.numCandidates =
      if ⌈(C.spanM + C.stripSpacing) / C.stripSpacing⌉ < 1 then 1
      else ⌈(C.spanM + C.stripSpacing) / C.stripSpacing⌉)
    (hcomplete : ∀ i, i < C.numCandidates.toNat → 1 ≤ i →
      productiveB C i = true) :
    (⌈C.spanM / C.stripSpacing⌉).toNat ≤ (runStrips C).actual := by
  rw [runStrips_actual]
  have hdiv : (C.spanM + C.stripSpacing) / C.stripSpacing =
      C.spanM / C.stripSpacing + 1 := by
    rw [add_div, div_self hsp.ne']
  have hC1 : 0 < ⌈C.spanM / C.stripSpacing⌉ :=
    Int.ceil_pos.mpr (div_pos hW hsp)
  have hN : C.numCandidates = ⌈C.spanM / C.stripSpacing⌉ + 1 := by
    rw [hNC, hdiv, Int.ceil_add_one, if_neg (by omega)]
  have hge : (List.range C.numCandidates.toNat).countP (fun i => decide (1 ≤ i)) ≤
      (List.range C.numCandidates.toNat).countP (productiveB C) := by
    apply countP_le_countP
    intro a ha hp
    exact hcomplete a (List.mem_range.mp ha) (by simpa using hp)
  have heq := countP_range_oneLe C.numCandidates.toNat
  omega

/-- C9: fix the polygon, camera and direction, and replace the two
overlap fractions; under the well-behavedness of the geometry library
on this input (scan lines are productive exactly when their offset
falls within the bounding box span, and samples along a clipped
segment pass the containment test), a wider strip spacing (a smaller
sidelap) does not increase `summaryStats.numStrips`, and a wider photo
spacing (a smaller frontlap) does not increase the number of photo
points contributed by any given accepted segment. -/
theorem overlap_monotonicity (geo : Geo) (g : GeoJSON) (drone : Drone)
    (oA : Options) (sB fB : Option ℚ) (seg : Line) (k : ℕ) (rA rB : CalcResult)
    (hokA : calculateStrips geo (some g) drone oA = .ok rA)
    (hokB : calculateStrips geo (some g) drone (withOverlaps oA sB fB) = .ok rB)
    (hspA : 0 < (theCtx geo g drone oA).stripSpacing)
    (hsp : (theCtx geo g drone oA).stripSpacing ≤
      (theCtx geo g drone (withOverlaps oA sB fB)).stripSpacing)
    (hspan : 0 < (theCtx geo g drone oA).spanM)
    (hsound : ∀ i,
      i < (theCtx geo g drone (withOverlaps oA sB fB)).numCandidates.toNat →
      productiveB (theCtx geo g drone (withOverlaps oA sB fB)) i = true →
      1 ≤ i ∧ ((i : ℚ) - 1) *
        (theCtx geo g drone (withOverlaps oA sB fB)).stripSpacing <
        (theCtx geo g drone oA).spanM)
    (hcomplete : ∀ i, i < (theCtx geo g drone oA).numCandidates.toNat →
      1 ≤ i → productiveB (theCtx geo g drone oA) i = true)
    (hpsA : 0 < (theCtx geo g drone oA).photoSpacing)
    (hps : (theCtx geo g drone oA).photoSpacing ≤
      (theCtx geo g drone (withOverlaps oA sB fB)).photoSpacing)
    (hlen : 0 ≤ geo.length seg)
    (hpip : ∀ s, s < stepCountOf (theCtx geo g drone oA) seg →
      geo.booleanPointInPolygon (sampleAt (theCtx geo g drone oA) seg s)
        g.coordinates = true) :
    rB.summaryStats.numStrips ≤ rA.summaryStats.numStrips ∧
    (segPhotos (theCtx geo g drone (withOverlaps oA sB fB)) seg k).length ≤
      (segPhotos (theCtx geo g drone oA) seg k).length := by
  have hA := calculateStrips_ok_inv geo g drone oA rA hokA
  have hB := calculateStrips_ok_inv geo g drone (withOverlaps oA sB fB) rB hokB
  subst hA
  subst hB
  constructor
  · show (runStrips (theCtx geo g drone (withOverlaps oA sB fB))).actual ≤
      (runStrips (theCtx geo g drone oA)).actual
    have hspB : 0 < (theCtx geo g drone (withOverlaps oA sB fB)).stripSpacing :=
      lt_of_lt_of_le hspA hsp
    have hub := run_actual_le (theCtx geo g drone (withOverlaps oA sB fB))
      ((theCtx geo g drone oA).spanM) hspB hsound
    have hlb := le_run_actual (theCtx geo g drone oA) hspA hspan rfl hcomplete
    have hmid : ⌈(theCtx geo g drone oA).spanM /
        (theCtx geo g drone (withOverlaps oA sB fB)).stripSpacing⌉ ≤
        ⌈(theCtx geo g drone oA).spanM / (theCtx geo g drone oA).stripSpacing⌉ := by
      apply Int.ceil_le_ceil
      gcongr
    omega
  · rw [segPhotos_length, segPhotos_length]
    split_ifs with h1 h2 h3
    · exact Nat.le_refl 0
    · exact Nat.zero_le _
    · exact absurd h3 h1
    · have hstep : stepCountOf (theCtx geo g drone (withOverlaps oA sB fB)) seg ≤
          stepCountOf (theCtx geo g drone oA) seg := by
        show (⌊geo.length seg * 1000 /
            (theCtx geo g drone (withOverlaps oA sB fB)).photoSpacing⌋ + 1).toNat ≤
          (⌊geo.length seg * 1000 / (theCtx geo g drone oA).photoSpacing⌋ + 1).toNat
        have hq : geo.length seg * 1000 /
            (theCtx geo g drone (withOverlaps oA sB fB)).photoSpacing ≤
            geo.length seg * 1000 / (theCtx geo g drone oA).photoSpacing := by
          gcongr
        have := Int.floor_le_floor hq
        omega
      have hBle : (List.range
          (stepCountOf (theCtx geo g drone (withOverlaps oA sB fB)) seg)).countP
            (fun s => (theCtx geo g drone
              (withOverlaps oA sB fB)).geo.booleanPointInPolygon
              (sampleAt (theCtx geo g drone (withOverlaps oA sB fB)) seg s)
              (theCtx geo g drone (withOverlaps oA sB fB)).origPoly) ≤
          stepCountOf (theCtx geo g drone (withOverlaps oA sB fB)) seg := by
        have := List.countP_le_length
          (l := List.range (stepCountOf (theCtx geo g drone (withOverlaps oA sB fB)) seg))
          (p := fun s => (theCtx geo g drone
            (withOverlaps oA sB fB)).geo.booleanPointInPolygon
            (sampleAt (theCtx geo g drone (withOverlaps oA sB fB)) seg s)
            (theCtx geo g drone (withOverlaps oA sB fB)).origPoly)
        simpa using this
      have hAeq : (List.range (stepCountOf (theCtx geo g drone oA) seg)).countP
          (fun s => (theCtx geo g drone oA).geo.booleanPointInPolygon
            (sampleAt (theCtx geo g drone oA) seg s)
            (theCtx geo g drone oA).origPoly) =
          stepCountOf (theCtx geo g drone oA) seg := by
        have hall : ∀ s ∈ List.range (stepCountOf (theCtx geo g drone oA) seg),
            ((theCtx geo g drone oA).geo.booleanPointInPolygon
              (sampleAt (theCtx geo g drone oA) seg s)
              (theCtx geo g drone oA).origPoly) = true :=
          fun s hs => hpip s (List.mem_range.mp hs)
        have h := List.countP_eq_length.mpr hall
        simpa using h
      omega

/-- Witness for C9 on the 2 km × 1 km rectangle: sidelap 0.6 → 0.25
widens the spacing from 800 m to 1500 m (3 strips → 2 strips), and
frontlap 0.7 → 0.5 widens the photo spacing from 300 m to 500 m (4
photos → 3 photos on the same 1 km segment). -/
theorem overlap_monotonicity_witness :
    rectResB.summaryStats.numStrips ≤ rectResA.summaryStats.numStrips ∧
    (segPhotos (theCtx pGeo rectG droneA
        (withOverlaps optsA (some (1 / 4)) (some (1 / 2)))) segR 0).length ≤
      (segPhotos (theCtx pGeo rectG droneA optsA) segR 0).length :=
  overlap_monotonicity pGeo rectG droneA optsA (some (1 / 4)) (some (1 / 2))
    segR 0 rectResA rectResB (by decide) (by decide) (by decide) (by decide)
    (by decide) (by decide) (by decide) (by decide) (by decide) (by decide)
    (by decide)

end DronePlanner

